import Mathlib

/-!
Shallow embedding of `src/PreprossingBlender.py`, a Blender batch pipeline
that merges the meshes of each GLB asset, reduces the vertex count toward a
target budget, strips texture nodes, renders one image and exports the mesh
to JSON.  The Blender host (scene graph, decimate/weld modifiers, join,
render) is modelled as an abstract capability record; the control flow and
data handling of the script itself are translated faithfully.
-/

/-- A 3-component vector of exact rationals (models a Blender `Vector`). -/
structure Vec3 where
  x : ℚ
  y : ℚ
  z : ℚ
deriving DecidableEq, Repr

/-- The world origin `(0, 0, 0)`. -/
def origin : Vec3 := ⟨0, 0, 0⟩

/-- The affine part of a Blender 4x4 `matrix_world`: a 3x3 linear block and a
translation column.  Applying it to a 3-vector treats the vector as a point
(homogeneous coordinate 1), as `Matrix @ Vector` does in the host. -/
structure Mat4 where
  m00 : ℚ
  m01 : ℚ
  m02 : ℚ
  m03 : ℚ
  m10 : ℚ
  m11 : ℚ
  m12 : ℚ
  m13 : ℚ
  m20 : ℚ
  m21 : ℚ
  m22 : ℚ
  m23 : ℚ
deriving DecidableEq, Repr

/-- `matrix_world @ vert.co`: apply the world transform to a local point. -/
def Mat4.apply (M : Mat4) (v : Vec3) : Vec3 :=
  ⟨M.m00 * v.x + M.m01 * v.y + M.m02 * v.z + M.m03,
   M.m10 * v.x + M.m11 * v.y + M.m12 * v.z + M.m13,
   M.m20 * v.x + M.m21 * v.y + M.m22 * v.z + M.m23⟩

/-- The identity world transform. -/
def Mat4.idXf : Mat4 := ⟨1, 0, 0, 0, 0, 1, 0, 0, 0, 0, 1, 0⟩

/-- A node of the shading graph of a material; `kind` is the `node.type`
string of the host (for example `"TEX_IMAGE"` or `"BSDF_PRINCIPLED"`). -/
structure ShaderNode where
  kind : String
deriving DecidableEq, Repr

/-- A Blender material as the script touches it: `use_nodes`, the optional
`node_tree` (its node list), and `diffuse_color` (RGBA).  Every Blender
material has a `diffuse_color` attribute, so the hasattr test of the script
is always true in the host. -/
structure Material where
  use_nodes : Bool
  node_tree : Option (List ShaderNode)
  diffuse_color : ℚ × ℚ × ℚ × ℚ
deriving DecidableEq, Repr

/-- Mesh data: ordered vertices, edges as vertex-index pairs, faces as
vertex-index lists (polygons), and the attached materials. -/
structure Mesh where
  vertices : List Vec3
  edges : List (ℕ × ℕ)
  faces : List (List ℕ)
  materials : List Material
deriving DecidableEq, Repr

/-- A Blender object: its `type` string (`"MESH"`, `"EMPTY"`, ...), its mesh
data, its transform channels and its composed `matrix_world`. -/
structure Obj where
  type : String
  data : Mesh
  location : Vec3
  rotation_euler : Vec3
  scale : Vec3
  matrix_world : Mat4
deriving DecidableEq, Repr

/-- `round(x, 4)` of Python: round to 4 decimal digits (the script applies
it to every floating-point field before serialization). -/
def round4 (q : ℚ) : ℚ := (round (q * 10000) : ℤ) / 10000

/-- A rational has been rounded to at most 4 decimal digits: it is an
integer multiple of `1/10000`. -/
def isRounded4 (q : ℚ) : Prop := ∃ z : ℤ, q = (z : ℚ) / 10000

/-- The minimal decimal representation of `q` (what `json.dump` writes for
the Python float) carries exactly 4 decimal places: `q * 10000` is an
integer but `q * 1000` is not. -/
def exactly4Decimals (q : ℚ) : Prop :=
  (q * 10000).den = 1 ∧ (q * 1000).den ≠ 1

/-- The in-memory mirror of the JSON artifact written by `export_to_json`:
name literal, rounded transform channels, world-space rounded vertices,
edge index pairs and face index lists. -/
structure ExportRecord where
  n : String
  l : List ℚ
  r : List ℚ
  s : List ℚ
  v : List (List ℚ)
  e : List (List ℕ)
  f : List (List ℕ)
deriving DecidableEq, Repr

/-- The `data` dictionary built by `export_to_json` (source lines 171-190):
hard-coded name `"airplane"`, location/rotation/scale rounded to 4
decimals, vertices transformed by `matrix_world` and rounded, edges and
faces copied in native order. -/
def export_record (obj : Obj) : ExportRecord :=
  { n := "airplane"
    l := [round4 obj.location.x, round4 obj.location.y, round4 obj.location.z]
    r := [round4 obj.rotation_euler.x, round4 obj.rotation_euler.y,
          round4 obj.rotation_euler.z]
    s := [round4 obj.scale.x, round4 obj.scale.y, round4 obj.scale.z]
    v := obj.data.vertices.map (fun vert =>
          let world_coord := obj.matrix_world.apply vert
          [round4 world_coord.x, round4 world_coord.y, round4 world_coord.z])
    e := obj.data.edges.map (fun ed => [ed.1, ed.2])
    f := obj.data.faces }

/-- All floating-point fields of an export record: location, rotation,
scale and every vertex coordinate. -/
def floatFields (rec : ExportRecord) : List ℚ :=
  rec.l ++ rec.r ++ rec.s ++ rec.v.flatten

/-- Failures the pipeline can raise: the `TypeError` of `reduce_vertices`
on a non-mesh object, and an I/O failure while writing an output file. -/
inductive PipeError where
  | typeErr : PipeError
  | ioErr : PipeError
deriving DecidableEq, Repr

/-- One call into the mesh host made by `reduce_vertices`: a collapse
decimation pass (with its `ratio` value and the
`use_collapse_triangulate` flag) or a `remove_doubles` weld pass (with its
`threshold`). -/
inductive HostCall where
  | decimate : ℚ → Bool → HostCall
  | weld : ℚ → HostCall
deriving DecidableEq, Repr

/-- The abstract mesh host: the geometric effect of a decimate modifier, of
a `remove_doubles` weld, and of `bpy.ops.object.join`.  These live in
Blender, outside the script, so they are parameters of the embedding. -/
structure HostOps where
  decimate : ℚ → Bool → Mesh → Mesh
  weld : ℚ → Mesh → Mesh
  join : Obj → List Obj → Obj

/-- `merge_all_meshes` (source lines 18-29): select the mesh objects of the
scene; if there are none, report and return `None`; otherwise join them all
into the first one and return the active merged object. -/
def merge_all_meshes (ops : HostOps) (scene_objects : List Obj) : Option Obj :=
  match scene_objects.filter (fun o => o.type == "MESH") with
  | [] => none
  | first :: others => some (ops.join first others)

/-- `reduce_vertices` (source lines 31-66).  A non-mesh object raises
`TypeError` before any edit.  If the vertex count is already within the
target, the function logs and returns with the mesh untouched.  Otherwise
it applies one collapse decimation pass with `ratio =
target / initial` and `use_collapse_triangulate = True`, then one
`remove_doubles` weld with threshold `0.0001`.  The result pairs the
updated object with the trace of host calls made. -/
def reduce_vertices (ops : HostOps) (obj : Obj) (target_vertex_count : ℕ) :
    Except PipeError (Obj × List HostCall) :=
  if obj.type ≠ "MESH" then
    Except.error PipeError.typeErr
  else
    let initial_vertex_count := obj.data.vertices.length
    if initial_vertex_count ≤ target_vertex_count then
      Except.ok (obj, [])
    else
      let r : ℚ := (target_vertex_count : ℚ) / (initial_vertex_count : ℚ)
      let decimated := ops.decimate r true obj.data
      let welded := ops.weld (1 / 10000) decimated
      Except.ok ({ obj with data := welded },
        [HostCall.decimate r true, HostCall.weld (1 / 10000)])

/-- The per-material body of `remove_textures` (source lines 73-80): only
when the material uses nodes and has a node tree are the `TEX_IMAGE` nodes
removed and `diffuse_color` set to `(1, 1, 1, 1)`; otherwise the material
is left as it is. -/
def strip_material (mat : Material) : Material :=
  if mat.use_nodes then
    match mat.node_tree with
    | some nodes =>
        { mat with
          node_tree := some (nodes.filter (fun n => n.kind ≠ "TEX_IMAGE"))
          diffuse_color := (1, 1, 1, 1) }
    | none => mat
  else
    mat

/-- `remove_textures` (source lines 68-82): iterate `strip_material` over
the materials of the object (when the list is empty the loop body never
runs and only a log line is printed). -/
def remove_textures (obj : Obj) : Obj :=
  { obj with data :=
      { obj.data with materials := obj.data.materials.map strip_material } }

/-- An object living in the render scene: name, host `type` string, and an
identity used to model Blender object references. -/
structure SceneObj where
  name : String
  kind : String
  id : ℕ
deriving DecidableEq, Repr

/-- The render scene as `render_image` touches it: the linked objects, the
`scene.render.filepath` setting, the `scene.camera` reference and a
freshness counter for new object identities. -/
structure Scene where
  objects : List SceneObj
  render_filepath : String
  camera : Option ℕ
  nextId : ℕ
deriving DecidableEq, Repr

/-- A scene with no objects, as `clear_scene` leaves it. -/
def empty_scene : Scene := ⟨[], "", none, 0⟩

/-- `add_plane_and_light` (source lines 84-114): link a ground plane, a sun
light and the empty the light tracks. -/
def add_plane_and_light (s : Scene) : Scene :=
  { s with
    objects := s.objects ++
      [⟨"Ground_Plane", "MESH", s.nextId⟩,
       ⟨"Sun", "LIGHT", s.nextId + 1⟩,
       ⟨"LightTarget", "EMPTY", s.nextId + 2⟩]
    nextId := s.nextId + 3 }

/-- `setup_camera` (source lines 116-135): link a new camera and a new
empty target tracked by it, returning the scene and both references. -/
def setup_camera (s : Scene) : Scene × ℕ × ℕ :=
  let camId := s.nextId
  let targetId := s.nextId + 1
  ({ s with
     objects := s.objects ++
       [⟨"Camera", "CAMERA", camId⟩, ⟨"Target", "EMPTY", targetId⟩]
     nextId := s.nextId + 2 },
   camId, targetId)

/-- `bpy.data.objects.remove(obj, do_unlink=True)`: drop the object and
clear any `scene.camera` reference to it. -/
def remove_obj (s : Scene) (i : ℕ) : Scene :=
  { s with
    objects := s.objects.filter (fun o => o.id ≠ i)
    camera := if s.camera = some i then none else s.camera }

/-- The camera pose `render_image` asks the host to render from: the angle
(degrees around the origin), the distance and height of the camera, and
the point the camera tracks.  The actual location is
`(distance * cos angle, distance * sin angle, height)`, computed by the
host math library. -/
structure RenderRequest where
  angle : ℤ
  distance : ℚ
  height : ℚ
  look_at : Vec3
deriving DecidableEq, Repr

/-- The default `distance` parameter of `render_image` (source line 137). -/
def render_default_distance : ℚ := 5

/-- The default `height` parameter of `render_image` (source line 137). -/
def render_default_height : ℚ := 2

/-- The image path `render_image` writes: `output_dir/base_name_angle.png`. -/
def render_image_path (output_dir base_name : String) (angle : ℤ) : String :=
  output_dir ++ "/" ++ base_name ++ "_" ++ toString angle ++ ".png"

/-- `render_image` (source lines 137-162).  It saves
`scene.render.filepath`, creates a camera and target via `setup_camera`,
points `scene.camera` at the new camera, sets the filepath to the image
path and renders.  When the render write succeeds it removes both created
objects and restores the filepath.  When the write raises, the exception
propagates before any cleanup, so the scene is left mid-flight.  `fsWrite`
says which paths can be written (models the filesystem).  The result is
the final scene, the error if any, the camera pose requested and the image
path. -/
def render_image (fsWrite : String → Bool) (s : Scene)
    (output_dir base_name : String) (angle : ℤ) (distance height : ℚ) :
    Scene × Option PipeError × RenderRequest × String :=
  let original_filepath := s.render_filepath
  let req : RenderRequest := ⟨angle, distance, height, origin⟩
  let staged := setup_camera s
  let s1 := staged.1
  let camId := staged.2.1
  let targetId := staged.2.2
  let s2 := { s1 with camera := some camId }
  let image_path := render_image_path output_dir base_name angle
  let s3 := { s2 with render_filepath := image_path }
  if fsWrite image_path then
    let s4 := remove_obj (remove_obj s3 camId) targetId
    let s5 := { s4 with render_filepath := original_filepath }
    (s5, none, req, image_path)
  else
    (s3, some PipeError.ioErr, req, image_path)

/-- `export_to_json` (source lines 164-195): build the record from the
object, then write it to `output_filepath`; an unwritable path raises an
I/O failure after the record is built. -/
def export_to_json (fsWrite : String → Bool) (obj : Obj)
    (output_filepath : String) : Except PipeError ExportRecord :=
  let data := export_record obj
  if fsWrite output_filepath then Except.ok data
  else Except.error PipeError.ioErr

/-- One input asset: the base filename (without extension) and the objects
its GLB import leaves in the scene. -/
structure Asset where
  name : String
  objects : List Obj
deriving Repr

/-- What a batch run leaves behind: the per-asset subfolders created, the
image and JSON files written, the names of skipped assets and the camera
poses requested. -/
structure BatchLog where
  folders : List String
  images : List String
  jsons : List String
  skips : List String
  requests : List RenderRequest
deriving DecidableEq, Repr

/-- The empty log. -/
def emptyLog : BatchLog := ⟨[], [], [], [], []⟩

/-- Concatenate two logs componentwise. -/
def append_log (a b : BatchLog) : BatchLog :=
  ⟨a.folders ++ b.folders, a.images ++ b.images, a.jsons ++ b.jsons,
   a.skips ++ b.skips, a.requests ++ b.requests⟩

/-- The body of the `for glb_file in glb_files` loop of
`process_glb_files` (source lines 206-230) for one asset: clear the scene,
import, merge (skipping the asset when no mesh object exists), reduce,
strip textures, stage the plane and light, create the per-asset folder,
render one image and export the JSON.  The result is the log of this asset
and the error that escaped the loop body, if any. -/
def process_one (ops : HostOps) (fsWrite : String → Bool)
    (output_folder : String) (target_vertex_count : ℕ) (render_angle : ℤ)
    (asset : Asset) : BatchLog × Option PipeError :=
  match merge_all_meshes ops asset.objects with
  | none => ({ emptyLog with skips := [asset.name] }, none)
  | some merged_obj =>
    match reduce_vertices ops merged_obj target_vertex_count with
    | Except.error e => (emptyLog, some e)
    | Except.ok (reduced, _calls) =>
      let stripped := remove_textures reduced
      let scene := add_plane_and_light empty_scene
      let model_folder := output_folder ++ "/" ++ asset.name
      let rendered := render_image fsWrite scene model_folder asset.name
        render_angle render_default_distance render_default_height
      let req := rendered.2.2.1
      let image_path := rendered.2.2.2
      match rendered.2.1 with
      | some e =>
          ({ emptyLog with folders := [model_folder], requests := [req] },
           some e)
      | none =>
        let json_path := model_folder ++ "/" ++ asset.name ++ ".json"
        match export_to_json fsWrite stripped json_path with
        | Except.error e =>
            ({ emptyLog with
                folders := [model_folder]
                images := [image_path]
                requests := [req] }, some e)
        | Except.ok _rec =>
            ({ emptyLog with
                folders := [model_folder]
                images := [image_path]
                jsons := [json_path]
                requests := [req] }, none)

/-- `process_glb_files` (source lines 197-230) over its discovered file
list: run the loop body per asset; a skip continues with the next file,
while an uncaught error propagates out of the loop and ends the batch with
the log accumulated so far. -/
def process_glb_files (ops : HostOps) (fsWrite : String → Bool)
    (output_folder : String) (target_vertex_count : ℕ) (render_angle : ℤ) :
    List Asset → BatchLog × Option PipeError
  | [] => (emptyLog, none)
  | asset :: rest =>
    let this := process_one ops fsWrite output_folder target_vertex_count
      render_angle asset
    match this.2 with
    | some e => (this.1, some e)
    | none =>
      let next := process_glb_files ops fsWrite output_folder
        target_vertex_count render_angle rest
      (append_log this.1 next.1, next.2)

/-- The script invocation at source lines 232-237 passes `render_angle =
45`, matching the default of the `render_angle` parameter of
`process_glb_files` (source line 197). -/
def script_render_angle : ℤ := 45

/-- `process_glb_files` as called with its default `render_angle`. -/
def process_glb_files_defaultAngle (ops : HostOps)
    (fsWrite : String → Bool) (output_folder : String)
    (target_vertex_count : ℕ) : List Asset → BatchLog × Option PipeError :=
  process_glb_files ops fsWrite output_folder target_vertex_count 45

/-- Modelled from the spec: the batch entry point configuration of section
6 of the design document, which lists `render_distance` and
`render_height` as recognized options next to `target_vertex_count` and
`render_angle`.  The source signature of `process_glb_files` has no such
parameters, so this record follows the words of the spec. -/
structure BatchConfigSpec where
  target_vertex_count : ℕ
  render_angle : ℤ
  render_distance : ℚ
  render_height : ℚ
deriving DecidableEq, Repr

/-- Modelled from the spec: the camera pose the spec-level entry point
would request, at the configured angle, distance and height, looking at
the world origin. -/
def renderRequestSpec (cfg : BatchConfigSpec) : RenderRequest :=
  ⟨cfg.render_angle, cfg.render_distance, cfg.render_height, origin⟩

/-! Concrete instances used by witnesses and counterexamples. -/

/-- A host whose decimate and weld leave the mesh unchanged and whose join
returns the first object. -/
def idHostOps : HostOps := ⟨fun _ _ m => m, fun _ m => m, fun first _ => first⟩

/-- A small triangle mesh. -/
def triMesh : Mesh :=
  ⟨[⟨0, 0, 0⟩, ⟨1, 0, 0⟩, ⟨0, 1, 0⟩], [(0, 1), (1, 2), (2, 0)], [[0, 1, 2]], []⟩

/-- A mesh object holding the triangle, at the identity transform. -/
def cubeObj : Obj := ⟨"MESH", triMesh, origin, origin, ⟨1, 1, 1⟩, Mat4.idXf⟩

/-- A non-mesh object (a Blender empty). -/
def nonMeshObj : Obj :=
  ⟨"EMPTY", ⟨[], [], [], []⟩, origin, origin, ⟨1, 1, 1⟩, Mat4.idXf⟩

/-- A material that does not use nodes, with a non-white color. -/
def plainMat : Material := ⟨false, none, (0, 0, 0, 1)⟩

/-- A texture-image node. -/
def texNode : ShaderNode := ⟨"TEX_IMAGE"⟩

/-- A non-texture shading node. -/
def bsdfNode : ShaderNode := ⟨"BSDF_PRINCIPLED"⟩

/-- A node-based material referencing a texture image. -/
def texMat : Material := ⟨true, some [texNode, bsdfNode], (3, 2, 2, 1)⟩

/-- A node-based material with no texture reference. -/
def noTexMat : Material := ⟨true, some [bsdfNode], (2, 2, 3, 1)⟩

/-- A mesh object whose only material does not use nodes. -/
def plainMatObj : Obj :=
  ⟨"MESH", ⟨[⟨0, 0, 0⟩], [], [], [plainMat]⟩, origin, origin, ⟨1, 1, 1⟩,
   Mat4.idXf⟩

/-- A mesh object sitting at the origin with one vertex there. -/
def originObj : Obj :=
  ⟨"MESH", ⟨[⟨0, 0, 0⟩], [(0, 0)], [[0]], []⟩, origin, origin, ⟨1, 1, 1⟩,
   Mat4.idXf⟩

/-- Asset `a1`: a single small mesh object. -/
def asset1 : Asset := ⟨"a1", [cubeObj]⟩

/-- Asset `a2`: a single small mesh object. -/
def asset2 : Asset := ⟨"a2", [cubeObj]⟩

/-- An asset whose import leaves only a non-mesh object in the scene. -/
def emptyAsset : Asset := ⟨"empty", [nonMeshObj]⟩

/-- A filesystem on which every write fails. -/
def fsNone : String → Bool := fun _ => false

/-- A filesystem on which every write succeeds. -/
def fsAll : String → Bool := fun _ => true

/-- A filesystem that rejects exactly the JSON path of asset `a1`. -/
def fsNoJson1 : String → Bool := fun p => !(p == "out/a1/a1.json")

/-- A spec-level entry-point configuration asking for camera distance 10
and height 3. -/
def specCfg : BatchConfigSpec := ⟨2000, 45, 10, 3⟩

/-- The mesh produced on the reducing path of `reduce_vertices`: one
decimate pass at ratio `target / initial` with triangulation, then one
weld pass at threshold `1e-4`. -/
def decimate_weld (ops : HostOps) (obj : Obj) (target_vertex_count : ℕ) :
    Mesh :=
  ops.weld (1 / 10000)
    (ops.decimate
      ((target_vertex_count : ℚ) / (obj.data.vertices.length : ℚ)) true
      obj.data)

/-! Helper lemmas shared by the claim theorems. -/

/-- The output of `round4` is an integer multiple of `1/10000`. -/
theorem isRounded4_round4 (q : ℚ) : isRounded4 (round4 q) :=
  ⟨round (q * 10000), rfl⟩

/-- Every floating-point field of an export record has been rounded to at
most 4 decimal digits. -/
theorem floatFields_isRounded4 (obj : Obj) :
    ∀ q ∈ floatFields (export_record obj), isRounded4 q := by
  intro q hq
  simp only [floatFields, export_record, List.mem_append, List.mem_flatten,
    List.mem_map] at hq
  rcases hq with ((h | h) | h) | ⟨a, ⟨vert, hv, rfl⟩, ha⟩
  · fin_cases h <;> exact isRounded4_round4 _
  · fin_cases h <;> exact isRounded4_round4 _
  · fin_cases h <;> exact isRounded4_round4 _
  · fin_cases ha <;> exact isRounded4_round4 _

/-- Filtering out one identity that is at least the freshness bound keeps a
scene object list unchanged. -/
theorem filter_fresh_id (l : List SceneObj) (n i : ℕ)
    (hn : ∀ o ∈ l, o.id < n) (hi : n ≤ i) :
    l.filter (fun o => o.id ≠ i) = l := by
  apply List.filter_eq_self.mpr
  intro o ho
  have := hn o ho
  simp only [ne_eq, decide_eq_true_eq]
  omega

/-- Both branches of `render_image` report the same camera pose: the given
angle, distance and height, looking at the origin. -/
theorem render_image_req (fsWrite : String → Bool) (s : Scene)
    (output_dir base_name : String) (angle : ℤ) (distance height : ℚ) :
    (render_image fsWrite s output_dir base_name angle distance
      height).2.2.1 = ⟨angle, distance, height, origin⟩ := by
  unfold render_image
  dsimp only
  split <;> rfl

/-! Claim theorems. -/

/-- Claim C2: for every mesh object whose vertex count is at most
`target_vertex_count`, `reduce_vertices` is a no-op — it returns with the
object (hence its vertex, edge and face sets) exactly equal to the input
and makes no decimation or weld host call. -/
theorem reduce_vertices_noop (ops : HostOps) (obj : Obj)
    (target_vertex_count : ℕ) (hm : obj.type = "MESH")
    (hle : obj.data.vertices.length ≤ target_vertex_count) :
    reduce_vertices ops obj target_vertex_count = Except.ok (obj, []) := by
  simp [reduce_vertices, hm, hle]

/-- Witness for C2: the triangle object, already within a budget of 10
vertices, passes through `reduce_vertices` unchanged. -/
theorem reduce_vertices_noop_witness :
    cubeObj.type = "MESH" ∧ cubeObj.data.vertices.length ≤ 10 ∧
    reduce_vertices idHostOps cubeObj 10 = Except.ok (cubeObj, []) :=
  ⟨rfl, by decide, reduce_vertices_noop idHostOps cubeObj 10 rfl (by decide)⟩

/-- Claim C3: for every mesh object whose vertex count exceeds a positive
`target_vertex_count`, `reduce_vertices` applies exactly one collapse
decimation pass with ratio `target / initial` (strictly between 0 and 1)
and triangulation on collapse, followed by exactly one weld pass with
epsilon `1e-4`. -/
theorem reduce_vertices_decimate_weld (ops : HostOps) (obj : Obj)
    (target_vertex_count : ℕ) (hm : obj.type = "MESH")
    (hpos : 1 ≤ target_vertex_count)
    (hgt : target_vertex_count < obj.data.vertices.length) :
    reduce_vertices ops obj target_vertex_count =
      Except.ok
        ({ obj with data := decimate_weld ops obj target_vertex_count },
         [HostCall.decimate ((target_vertex_count : ℚ) /
            (obj.data.vertices.length : ℚ)) true,
          HostCall.weld (1 / 10000)]) ∧
    0 < (target_vertex_count : ℚ) / (obj.data.vertices.length : ℚ) ∧
    (target_vertex_count : ℚ) / (obj.data.vertices.length : ℚ) < 1 := by
  have hlen : 0 < obj.data.vertices.length :=
    lt_trans (Nat.lt_of_lt_of_le Nat.zero_lt_one hpos) hgt
  have hlenq : (0 : ℚ) < (obj.data.vertices.length : ℚ) := by
    exact_mod_cast hlen
  refine ⟨?_, ?_, ?_⟩
  · simp [reduce_vertices, decimate_weld, hm, Nat.not_le.mpr hgt]
  · apply div_pos _ hlenq
    exact_mod_cast Nat.lt_of_lt_of_le Nat.zero_lt_one hpos
  · rw [div_lt_one hlenq]
    exact_mod_cast hgt

/-- Witness for C3: the 3-vertex triangle with target 2 gets one decimate
pass at ratio 2/3 with triangulation and one weld pass at `1e-4`. -/
theorem reduce_vertices_decimate_weld_witness :
    cubeObj.type = "MESH" ∧ 1 ≤ 2 ∧ 2 < cubeObj.data.vertices.length ∧
    (reduce_vertices idHostOps cubeObj 2 =
      Except.ok
        ({ cubeObj with data := decimate_weld idHostOps cubeObj 2 },
         [HostCall.decimate (((2 : ℕ) : ℚ) /
            (cubeObj.data.vertices.length : ℚ)) true,
          HostCall.weld (1 / 10000)]) ∧
     0 < ((2 : ℕ) : ℚ) / (cubeObj.data.vertices.length : ℚ) ∧
     ((2 : ℕ) : ℚ) / (cubeObj.data.vertices.length : ℚ) < 1) :=
  ⟨rfl, by decide, by decide,
   reduce_vertices_decimate_weld idHostOps cubeObj 2 rfl (by decide)
     (by decide)⟩

/-- Claim C8: calling `reduce_vertices` on an object whose type is not
mesh raises the type-mismatch signal, before any host call could modify
mesh data. -/
theorem reduce_vertices_type_err (ops : HostOps) (obj : Obj)
    (target_vertex_count : ℕ) (hm : obj.type ≠ "MESH") :
    reduce_vertices ops obj target_vertex_count =
      Except.error PipeError.typeErr := by
  simp [reduce_vertices, hm]

/-- Witness for C8: the empty object is rejected with `TypeError`. -/
theorem reduce_vertices_type_err_witness :
    nonMeshObj.type ≠ "MESH" ∧
    reduce_vertices idHostOps nonMeshObj 10 =
      Except.error PipeError.typeErr :=
  ⟨by decide, reduce_vertices_type_err idHostOps nonMeshObj 10 (by decide)⟩

/-- Counterexample to claim C6 as stated: a mesh whose only material does
not use nodes passes through `remove_textures` with its color untouched,
so not every material ends with fallback color `(1, 1, 1, 1)`. -/
theorem remove_textures_counterexample :
    (remove_textures plainMatObj).data.materials = [plainMat] ∧
    plainMat.diffuse_color ≠ ((1 : ℚ), (1 : ℚ), (1 : ℚ), (1 : ℚ)) := by
  constructor
  · rfl
  · decide

/-- Claim C6 (amended): `remove_textures` maps `strip_material` over the
materials, keeping their number; every material that uses nodes and has a
node tree loses all its `TEX_IMAGE` nodes (other nodes survive) and gets
fallback color `(1, 1, 1, 1)`, while a material that does not use nodes,
or has no node tree, is left exactly as it was. -/
theorem remove_textures_amended (obj : Obj) :
    (remove_textures obj).data.materials =
      obj.data.materials.map strip_material ∧
    (remove_textures obj).data.materials.length =
      obj.data.materials.length ∧
    (∀ mat : Material, mat.use_nodes = true →
      ∀ nodes, mat.node_tree = some nodes →
        (strip_material mat).diffuse_color = (1, 1, 1, 1) ∧
        (strip_material mat).node_tree =
          some (nodes.filter (fun n => n.kind ≠ "TEX_IMAGE")) ∧
        ∀ n ∈ (strip_material mat).node_tree.getD [],
          n.kind ≠ "TEX_IMAGE") ∧
    (∀ mat : Material, mat.use_nodes = false ∨ mat.node_tree = none →
      strip_material mat = mat) := by
  refine ⟨rfl, by simp [remove_textures], ?_, ?_⟩
  · intro mat hu nodes hn
    refine ⟨by simp [strip_material, hu, hn], by simp [strip_material, hu, hn], ?_⟩
    intro n hmem
    simp [strip_material, hu, hn, List.mem_filter] at hmem
    exact hmem.2
  · intro mat h
    rcases h with h | h
    · simp [strip_material, h]
    · cases hu : mat.use_nodes <;> simp [strip_material, h, hu]

/-- Witness for C6 (amended): of two node-based materials, one with a
texture node and one without, both come out with no texture node and
fallback color `(1, 1, 1, 1)`; the node-free material of the
counterexample object is returned untouched. -/
theorem remove_textures_amended_witness :
    (strip_material texMat).diffuse_color = (1, 1, 1, 1) ∧
    (strip_material texMat).node_tree = some [bsdfNode] ∧
    (strip_material noTexMat).diffuse_color = (1, 1, 1, 1) ∧
    (strip_material noTexMat).node_tree = some [bsdfNode] ∧
    strip_material plainMat = plainMat :=
  ⟨((remove_textures_amended plainMatObj).2.2.1 texMat rfl
      [texNode, bsdfNode] rfl).1,
   by
     have h := ((remove_textures_amended plainMatObj).2.2.1 texMat rfl
       [texNode, bsdfNode] rfl).2.1
     simpa using h,
   ((remove_textures_amended plainMatObj).2.2.1 noTexMat rfl
      [bsdfNode] rfl).1,
   by
     have h := ((remove_textures_amended plainMatObj).2.2.1 noTexMat rfl
       [bsdfNode] rfl).2.1
     simpa using h,
   (remove_textures_amended plainMatObj).2.2.2 plainMat (Or.inl rfl)⟩

/-- Claim C7: an asset whose scene holds no mesh object makes
`merge_all_meshes` return the explicit empty result; the loop body records
a skip, creates no subfolder and writes nothing, and the batch continues
with the remaining files. -/
theorem no_mesh_skip (ops : HostOps) (fsWrite : String → Bool)
    (output_folder : String) (target_vertex_count : ℕ) (render_angle : ℤ)
    (asset : Asset) (h : ∀ o ∈ asset.objects, o.type ≠ "MESH") :
    merge_all_meshes ops asset.objects = none ∧
    process_one ops fsWrite output_folder target_vertex_count render_angle
      asset = ({ emptyLog with skips := [asset.name] }, none) ∧
    (process_one ops fsWrite output_folder target_vertex_count render_angle
      asset).1.folders = [] ∧
    ∀ rest, process_glb_files ops fsWrite output_folder target_vertex_count
        render_angle (asset :: rest) =
      (append_log { emptyLog with skips := [asset.name] }
        (process_glb_files ops fsWrite output_folder target_vertex_count
          render_angle rest).1,
       (process_glb_files ops fsWrite output_folder target_vertex_count
          render_angle rest).2) := by
  have hfilter : asset.objects.filter (fun o => o.type == "MESH") = [] := by
    apply List.filter_eq_nil_iff.mpr
    intro o ho
    simpa using h o ho
  have hmerge : merge_all_meshes ops asset.objects = none := by
    simp [merge_all_meshes, hfilter]
  have hone : process_one ops fsWrite output_folder target_vertex_count
      render_angle asset = ({ emptyLog with skips := [asset.name] }, none) := by
    simp [process_one, hmerge]
  refine ⟨hmerge, hone, by simp [hone, emptyLog], ?_⟩
  intro rest
  simp [process_glb_files, hone]

/-- Witness for C7: the asset holding only an empty object is skipped, the
log shows no subfolder, and the batch goes on to process the next asset. -/
theorem no_mesh_skip_witness :
    (∀ o ∈ emptyAsset.objects, o.type ≠ "MESH") ∧
    merge_all_meshes idHostOps emptyAsset.objects = none ∧
    process_one idHostOps fsAll "out" 10 45 emptyAsset =
      ({ emptyLog with skips := [emptyAsset.name] }, none) :=
  ⟨by decide,
   (no_mesh_skip idHostOps fsAll "out" 10 45 emptyAsset (by decide)).1,
   (no_mesh_skip idHostOps fsAll "out" 10 45 emptyAsset (by decide)).2.1⟩

/-- Claim C4: each vertex coordinate in the export record is the local
coordinate transformed by the full world transform and then rounded, the
transform channels are likewise rounded, and every floating-point field of
the record has been rounded to 4 decimal digits. -/
theorem export_record_world_rounded (obj : Obj) :
    (export_record obj).v = obj.data.vertices.map (fun vert =>
      [round4 (obj.matrix_world.apply vert).x,
       round4 (obj.matrix_world.apply vert).y,
       round4 (obj.matrix_world.apply vert).z]) ∧
    (export_record obj).l =
      [round4 obj.location.x, round4 obj.location.y,
       round4 obj.location.z] ∧
    (export_record obj).r =
      [round4 obj.rotation_euler.x, round4 obj.rotation_euler.y,
       round4 obj.rotation_euler.z] ∧
    (export_record obj).s =
      [round4 obj.scale.x, round4 obj.scale.y, round4 obj.scale.z] ∧
    ∀ q ∈ floatFields (export_record obj), isRounded4 q :=
  ⟨rfl, rfl, rfl, rfl, floatFields_isRounded4 obj⟩

/-- Witness for C4: on the triangle object the exported location is the
rounded location, and its first coordinate (a member of the float fields)
is indeed a multiple of `1/10000`. -/
theorem export_record_world_rounded_witness :
    (export_record cubeObj).l =
      [round4 cubeObj.location.x, round4 cubeObj.location.y,
       round4 cubeObj.location.z] ∧
    isRounded4 (round4 cubeObj.location.x) :=
  ⟨(export_record_world_rounded cubeObj).2.1,
   (export_record_world_rounded cubeObj).2.2.2.2
     (round4 cubeObj.location.x)
     (by simp [floatFields, export_record])⟩

/-- Counterexample to claim C5 as stated: on an object sitting at the
origin the first serialized location field is the number `0`, whose
written form does not carry exactly 4 decimal places (`json.dump` writes
the shortest float form, with no padding). -/
theorem export_decimals_counterexample :
    (export_record originObj).l.head? = some 0 ∧
    ¬ exactly4Decimals 0 := by
  constructor
  · simp [export_record, originObj, origin, round4]
  · intro h
    exact h.2 (by norm_num)

/-- Claim C5 (amended): parsing the written JSON back, the lengths of its
`v`, `e` and `f` arrays equal the vertex, edge and face counts of the
finalized mesh, and every floating-point field has been rounded to 4
decimal places (it is a multiple of `1/10000`), though fields needing
fewer digits are not padded to exactly 4 decimal places in the text. -/
theorem export_counts_and_rounding (obj : Obj) :
    (export_record obj).v.length = obj.data.vertices.length ∧
    (export_record obj).e.length = obj.data.edges.length ∧
    (export_record obj).f.length = obj.data.faces.length ∧
    ∀ q ∈ floatFields (export_record obj), isRounded4 q :=
  ⟨by simp [export_record], by simp [export_record], rfl,
   floatFields_isRounded4 obj⟩

/-- Witness for C5 (amended): the triangle object exports 3 vertex
entries, 3 edge entries and 1 face entry, matching its mesh counts. -/
theorem export_counts_and_rounding_witness :
    (export_record cubeObj).v.length = cubeObj.data.vertices.length ∧
    (export_record cubeObj).e.length = cubeObj.data.edges.length ∧
    (export_record cubeObj).f.length = cubeObj.data.faces.length :=
  ⟨(export_counts_and_rounding cubeObj).1,
   (export_counts_and_rounding cubeObj).2.1,
   (export_counts_and_rounding cubeObj).2.2.1⟩

/-- Claim C10: when the render write succeeds, `render_image` leaves the
scene with its object set and its render filepath exactly as on entry (it
restores the saved filepath and deletes the camera and target it created)
and reports no error. -/
theorem render_image_frame (fsWrite : String → Bool) (s : Scene)
    (output_dir base_name : String) (angle : ℤ) (distance height : ℚ)
    (hfresh : ∀ o ∈ s.objects, o.id < s.nextId)
    (hwrite : fsWrite (render_image_path output_dir base_name angle) = true) :
    (render_image fsWrite s output_dir base_name angle distance
      height).1.objects = s.objects ∧
    (render_image fsWrite s output_dir base_name angle distance
      height).1.render_filepath = s.render_filepath ∧
    (render_image fsWrite s output_dir base_name angle distance
      height).2.1 = none := by
  have h1 : (s.objects ++
      [⟨"Camera", "CAMERA", s.nextId⟩, ⟨"Target", "EMPTY", s.nextId + 1⟩] :
        List SceneObj).filter (fun o => o.id ≠ s.nextId) =
      s.objects ++ [⟨"Target", "EMPTY", s.nextId + 1⟩] := by
    rw [List.filter_append, filter_fresh_id s.objects s.nextId s.nextId
      hfresh le_rfl]
    simp
  have h2 : ((s.objects ++ [⟨"Target", "EMPTY", s.nextId + 1⟩] :
        List SceneObj)).filter (fun o => o.id ≠ s.nextId + 1) = s.objects := by
    rw [List.filter_append, filter_fresh_id s.objects s.nextId (s.nextId + 1)
      hfresh (Nat.le_succ _)]
    simp
  refine ⟨?_, ?_, ?_⟩ <;>
    simp [render_image, setup_camera, remove_obj, hwrite, h1, h2]
  intro a ha
  have := hfresh a ha
  omega

/-- Witness for C10: rendering into an empty scene whose writes all
succeed returns the scene to its entry state. -/
theorem render_image_frame_witness :
    (render_image fsAll empty_scene "out/a1" "a1" 45 5 2).1.objects =
      empty_scene.objects ∧
    (render_image fsAll empty_scene "out/a1" "a1" 45 5
      2).1.render_filepath = empty_scene.render_filepath ∧
    (render_image fsAll empty_scene "out/a1" "a1" 45 5 2).2.1 = none :=
  render_image_frame fsAll empty_scene "out/a1" "a1" 45 5 2 (by decide) rfl

/-- Counterexample to claim C9 as stated: the batch run requests the
camera at the fixed default distance 5 and height 2, so a spec-level
configuration asking for distance 10 and height 3 cannot be honored — the
entry point has no `render_distance` or `render_height` option. -/
theorem render_config_counterexample :
    (process_one idHostOps fsAll "out" 10 45 asset1).1.requests =
      [⟨45, render_default_distance, render_default_height, origin⟩] ∧
    renderRequestSpec specCfg ≠
      ⟨45, render_default_distance, render_default_height, origin⟩ := by
  constructor
  · rfl
  · intro h
    have hd : specCfg.render_distance = render_default_distance :=
      congrArg RenderRequest.distance h
    revert hd
    decide

/-- Claim C9 (amended): the batch entry point recognizes `render_angle`
(invoked with 45, matching its default) but no distance or height option;
every camera pose it requests is at the caller-supplied angle with fixed
distance 5 and height 2, looking at the world origin. -/
theorem render_pose_fixed (ops : HostOps) (fsWrite : String → Bool)
    (output_folder : String) (target_vertex_count : ℕ) (render_angle : ℤ)
    (asset : Asset) :
    (∀ req ∈ (process_one ops fsWrite output_folder target_vertex_count
        render_angle asset).1.requests,
      req = ⟨render_angle, 5, 2, origin⟩) ∧
    ∀ assets, process_glb_files_defaultAngle ops fsWrite output_folder
        target_vertex_count assets =
      process_glb_files ops fsWrite output_folder target_vertex_count 45
        assets := by
  constructor
  · intro req hreq
    simp only [process_one] at hreq
    split at hreq
    · simp [emptyLog] at hreq
    · split at hreq
      · simp [emptyLog] at hreq
      · split at hreq
        · simp only [emptyLog, List.mem_singleton] at hreq
          rw [hreq, render_image_req]
          rfl
        · split at hreq
          · simp only [emptyLog, List.mem_singleton] at hreq
            rw [hreq, render_image_req]
            rfl
          · simp only [emptyLog, List.mem_singleton] at hreq
            rw [hreq, render_image_req]
            rfl
  · intro assets
    rfl

/-- Witness for C9 (amended): the request recorded for asset `a1` at angle
45 is the fixed pose — distance 5, height 2, looking at the origin. -/
theorem render_pose_fixed_witness :
    (⟨45, render_default_distance, render_default_height, origin⟩ :
      RenderRequest) = ⟨45, 5, 2, origin⟩ :=
  (render_pose_fixed idHostOps fsAll "out" 10 45 asset1).1
    ⟨45, render_default_distance, render_default_height, origin⟩
    (List.Mem.head _)

/-- The log accumulated by the loop over a list of assets that all finish
without error. -/
def logs_of (ops : HostOps) (fsWrite : String → Bool)
    (output_folder : String) (target_vertex_count : ℕ) (render_angle : ℤ)
    (assets : List Asset) (base : BatchLog) : BatchLog :=
  assets.foldr
    (fun a acc => append_log
      (process_one ops fsWrite output_folder target_vertex_count
        render_angle a).1 acc)
    base

/-- Claim C1 (amended): only the no-mesh condition is handled per asset; a
fatal stage failure escapes the loop uncaught, so the batch ends at the
failing asset with the error, the log holds only the assets before it and
its own partial output, and no later input file is processed. -/
theorem batch_aborts_on_error (ops : HostOps) (fsWrite : String → Bool)
    (output_folder : String) (target_vertex_count : ℕ) (render_angle : ℤ)
    (pre : List Asset) (bad : Asset) (post : List Asset) (e : PipeError)
    (hpre : ∀ a ∈ pre, (process_one ops fsWrite output_folder
      target_vertex_count render_angle a).2 = none)
    (hbad : (process_one ops fsWrite output_folder target_vertex_count
      render_angle bad).2 = some e) :
    process_glb_files ops fsWrite output_folder target_vertex_count
        render_angle (pre ++ bad :: post) =
      (logs_of ops fsWrite output_folder target_vertex_count render_angle
        pre (process_one ops fsWrite output_folder target_vertex_count
          render_angle bad).1,
       some e) := by
  induction pre with
  | nil =>
      simp only [List.nil_append, process_glb_files, logs_of, List.foldr_nil]
      rw [hbad]
  | cons a pre ih =>
      have ha : (process_one ops fsWrite output_folder target_vertex_count
          render_angle a).2 = none := hpre a (List.mem_cons_self a pre)
      have hrest : ∀ b ∈ pre, (process_one ops fsWrite output_folder
          target_vertex_count render_angle b).2 = none :=
        fun b hb => hpre b (List.mem_cons_of_mem a hb)
      simp only [List.cons_append, process_glb_files]
      rw [ha]
      simp only [List.append_eq]
      rw [ih hrest]
      simp [logs_of]

/-- Witness for C1 (amended): asset `a1` fails its render write, ending a
two-asset batch with the I/O error before `a2` is reached. -/
theorem batch_aborts_on_error_witness :
    (process_one idHostOps fsNone "out" 10 45 asset1).2 =
      some PipeError.ioErr ∧
    process_glb_files idHostOps fsNone "out" 10 45 [asset1, asset2] =
      (logs_of idHostOps fsNone "out" 10 45 []
        (process_one idHostOps fsNone "out" 10 45 asset1).1,
       some PipeError.ioErr) :=
  ⟨rfl,
   batch_aborts_on_error idHostOps fsNone "out" 10 45 [] asset1 [asset2]
     PipeError.ioErr (by simp) rfl⟩

/-- Counterexample to claim C1 as stated: with the JSON write of asset
`a1` failing, the batch of `a1` and `a2` ends at the error — asset `a2`
gets no folder and is not even recorded as skipped, so the failure aborted
the whole batch rather than only `a1`. -/
theorem batch_abort_counterexample :
    (process_glb_files idHostOps fsNoJson1 "out" 10 45
      [asset1, asset2]).2 = some PipeError.ioErr ∧
    (process_glb_files idHostOps fsNoJson1 "out" 10 45
      [asset1, asset2]).1.folders = ["out/a1"] ∧
    "out/a2" ∉ (process_glb_files idHostOps fsNoJson1 "out" 10 45
      [asset1, asset2]).1.folders ∧
    (process_glb_files idHostOps fsNoJson1 "out" 10 45
      [asset1, asset2]).1.skips = [] := by
  refine ⟨rfl, rfl, ?_, rfl⟩
  decide
